import Mathlib

/-!
The vgd virtual graphics framebuffer driver.

A shallow embedding of the mode validator (`driver/mode.c`), the use-count
and control-request code (`driver/vgfbmx.c`) and the instance registry
(`vgfbmx.c`), followed by the properties established about them.

Conventions.  `__u32` fields are natural numbers holding values below `2^32`;
every arithmetic operation that can leave that range is reduced modulo `2^32`
exactly where the C code computes it.  `unsigned long` and `size_t` are 64 bit.
Kernel lists (`struct list_head`) are Lean lists in traversal order.
-/

namespace VGD

/-! ## Constants -/

/-- Number of values of a `__u32`. -/
def U32 : Nat := 4294967296

/-- Number of values of an `unsigned long` / `size_t`. -/
def U64 : Nat := 18446744073709551616

/-- Value of `EINVAL` in `linux/errno.h`. -/
def EINVAL : Int := 22

/-- Value of `EFAULT` in `linux/errno.h`. -/
def EFAULT : Int := 14

/-- Value of `ENODEV` in `linux/errno.h`. -/
def ENODEV : Int := 19

/-! ## Data model (`linux/fb.h`) -/

/-- The `struct fb_bitfield` of `linux/fb.h`: one colour lane. -/
structure fb_bitfield where
  offset : Nat
  length : Nat
  msb_right : Nat
deriving DecidableEq, Repr

/-- The `struct fb_var_screeninfo` of `linux/fb.h`: the mode of an instance. -/
structure fb_var_screeninfo where
  xres : Nat
  yres : Nat
  xres_virtual : Nat
  yres_virtual : Nat
  xoffset : Nat
  yoffset : Nat
  bits_per_pixel : Nat
  grayscale : Nat
  red : fb_bitfield
  green : fb_bitfield
  blue : fb_bitfield
  transp : fb_bitfield
  nonstd : Nat
  activate : Nat
  height : Nat
  width : Nat
  accel_flags : Nat
  pixclock : Nat
  left_margin : Nat
  right_margin : Nat
  upper_margin : Nat
  lower_margin : Nat
  hsync_len : Nat
  vsync_len : Nat
  sync : Nat
  vmode : Nat
  rotate : Nat
  colorspace : Nat
  reserved : List Nat
deriving DecidableEq, Repr

/-- The `struct fb_videomode` of `linux/fb.h`: one entry of the mode-list. -/
structure fb_videomode where
  name : String
  refresh : Nat
  xres : Nat
  yres : Nat
  pixclock : Nat
  left_margin : Nat
  right_margin : Nat
  upper_margin : Nat
  lower_margin : Nat
  hsync_len : Nat
  vsync_len : Nat
  sync : Nat
  vmode : Nat
  flag : Nat
deriving DecidableEq, Repr

/-- The part of `struct fb_info` that the embedded functions read or write:
the committed mode `var` and the mode-list `modelist`. -/
structure fb_info where
  var : fb_var_screeninfo
  modelist : List fb_videomode
deriving DecidableEq, Repr

/-! ## `driver/mode.c` -/

/-- The `list_for_each_safe` loop of `vgfb_check_var` (mode.c lines 30-41).
The second argument is the running value of `found`; the result is the final
`found` and the list that is left after the `list_del`/`kfree` calls. -/
def modelist_scan (tmp : fb_var_screeninfo) :
    List fb_videomode → Bool → Bool × List fb_videomode
  | [], found => (found, [])
  | mode :: rest, found =>
    if mode.xres = 0 then
      let r := modelist_scan tmp rest found
      (r.1, mode :: r.2)
    else if mode.xres = tmp.xres ∧ mode.yres = tmp.yres then
      let r := modelist_scan tmp rest true
      (r.1, mode :: r.2)
    else
      modelist_scan tmp rest found

/-- The write-back of `vgfb_check_var` (mode.c lines 46-65): `*var = info->var`,
then the geometry fields from `tmp`, then the lane layout chosen by
`var->bits_per_pixel`.  Both branches of the source test for 24. -/
def check_var_writeback (tmp : fb_var_screeninfo) (info : fb_info) :
    fb_var_screeninfo :=
  let var : fb_var_screeninfo :=
    { info.var with
      xres := tmp.xres
      yres := tmp.yres
      xres_virtual := tmp.xres
      yres_virtual := (tmp.yres * 2) % U32
      xoffset := tmp.xoffset
      yoffset := tmp.yoffset }
  if var.bits_per_pixel = 24 then
    { var with
      red := ⟨0, 8, 0⟩
      green := ⟨8, 8, 0⟩
      blue := ⟨16, 8, 0⟩
      transp := ⟨0, 0, 0⟩ }
  else if var.bits_per_pixel = 24 then
    { var with
      red := ⟨0, 8, 0⟩
      green := ⟨8, 8, 0⟩
      blue := ⟨16, 8, 0⟩
      transp := ⟨32, 8, 0⟩ }
  else var

/-- What a call of `vgfb_check_var` leaves behind: the return value, the
caller's `*var` and the instance's `*info`. -/
structure check_var_result where
  ret : Int
  var : fb_var_screeninfo
  info : fb_info
deriving DecidableEq, Repr

/-- The function `vgfb_check_var` of mode.c (lines 13-68). -/
def vgfb_check_var (var : fb_var_screeninfo) (info : fb_info) : check_var_result :=
  let tmp := var
  if tmp.bits_per_pixel ≠ 24 ∧ tmp.bits_per_pixel ≠ 32 then
    ⟨-EINVAL, var, info⟩
  else if tmp.xoffset ≠ 0 then
    ⟨-EINVAL, var, info⟩
  else if tmp.yoffset > tmp.yres then
    ⟨-EINVAL, var, info⟩
  else if ¬ (tmp.xres = info.var.xres ∧ tmp.yres = info.var.yres) then
    let s := modelist_scan tmp info.modelist false
    let info1 : fb_info := { info with modelist := s.2 }
    if ¬ s.1 then
      ⟨-EINVAL, var, info1⟩
    else
      ⟨0, check_var_writeback tmp info1, info1⟩
  else
    ⟨0, check_var_writeback tmp info, info⟩

/-- The function `vgfb_set_par` of mode.c: does nothing and returns 0. -/
def vgfb_set_par (_info : fb_info) : Int := 0

/-- What a call of `vgfb_pan_display` leaves behind. -/
structure pan_result where
  ret : Int
  info : fb_info
deriving DecidableEq, Repr

/-- The function `vgfb_pan_display` of mode.c (lines 80-89).  The two
differences are `__u32` subtractions. -/
def vgfb_pan_display (var : fb_var_screeninfo) (info : fb_info) : pan_result :=
  if var.xoffset > (info.var.xres_virtual + U32 - info.var.xres) % U32 then
    ⟨-EINVAL, info⟩
  else if var.yoffset > (info.var.yres_virtual + U32 - info.var.yres) % U32 then
    ⟨-EINVAL, info⟩
  else
    ⟨0, { info with var := { info.var with xoffset := var.xoffset, yoffset := var.yoffset } }⟩

/-! ## `driver/vgfbmx.c` -/

namespace Driver

/-- The part of `struct vgfbm` that `vgfbm_acquire` and `vgfbm_release` read or
write: the use-count `count` (an `unsigned long`). -/
structure vgfbm where
  count : Nat
deriving DecidableEq, Repr

/-- The function `vgfbm_acquire` of driver/vgfbmx.c (lines 37-45): the returned
flag is the C return value. -/
def vgfbm_acquire (fb : vgfbm) : Bool × vgfbm :=
  let val := (fb.count + 1) % U64
  if val = 0 then (false, fb)
  else (true, { fb with count := val })

/-- The three ways out of `vgfbm_release`: the refused underflow (lines 53-58),
the return with references left (lines 61-64), and the destruction with
`vgfb_free` and `kfree` (lines 65-67). -/
inductive release_path where
  | underflow
  | still_used
  | freed
deriving DecidableEq, Repr

/-- What a call of `vgfbm_release` leaves behind. -/
structure release_result where
  fb : vgfbm
  path : release_path
deriving DecidableEq, Repr

/-- The function `vgfbm_release` of driver/vgfbmx.c (lines 47-68).  `val` is
non-zero where it is decremented, so the decrement does not wrap. -/
def vgfbm_release (fb : vgfbm) : release_result :=
  let val := fb.count
  if val = 0 then
    ⟨fb, release_path.underflow⟩
  else
    let val := val - 1
    let fb1 : vgfbm := { fb with count := val }
    if val ≠ 0 then
      ⟨fb1, release_path.still_used⟩
    else
      ⟨fb1, release_path.freed⟩

/-- The instance that `vgfbmx_open` of driver/vgfbmx.c (lines 90-114) hands
out when `vgfb_create` succeeds: zeroed by `kzalloc`, then one
`vgfbm_acquire`. -/
def vgfbmx_open : vgfbm :=
  (vgfbm_acquire { count := 0 }).2

/-- A use-count call made on an instance. -/
inductive refop where
  | acquire
  | release
deriving DecidableEq, Repr

/-- Number of times `vgfb_free` is invoked when the calls `ops` are made in
order on the instance `fb`. -/
def run_frees : List refop → vgfbm → Nat
  | [], _ => 0
  | refop.acquire :: ops, fb => run_frees ops (vgfbm_acquire fb).2
  | refop.release :: ops, fb =>
    (if (vgfbm_release fb).path = release_path.freed then 1 else 0)
      + run_frees ops (vgfbm_release fb).fb

/-- Every `vgfbm_acquire` among `ops` is made on an instance whose use-count
is not 0 and returns `true`. -/
def acquires_on_live : List refop → vgfbm → Bool
  | [], _ => true
  | refop.acquire :: ops, fb =>
    decide (fb.count ≠ 0) && (vgfbm_acquire fb).1
      && acquires_on_live ops (vgfbm_acquire fb).2
  | refop.release :: ops, fb => acquires_on_live ops (vgfbm_release fb).fb

/-- Every `vgfbm_acquire` among `ops` returns `true`. -/
def acquires_succeed : List refop → vgfbm → Bool
  | [], _ => true
  | refop.acquire :: ops, fb =>
    (vgfbm_acquire fb).1 && acquires_succeed ops (vgfbm_acquire fb).2
  | refop.release :: ops, fb => acquires_succeed ops (vgfbm_release fb).fb

/-- Among the first `k` calls of `ops` there is a moment at which more
releases than acquires have been made. -/
def releases_exceed (ops : List refop) (k : Nat) : Prop :=
  ∃ j, j ≤ k ∧
    (ops.take j).count refop.acquire < (ops.take j).count refop.release

/-- Somewhere along `l` the releases made so far are at least `c` more than
the acquires made so far: the moment at which a use-count that starts at `c`
is used up. -/
def deficit_reached (c : Nat) (l : List refop) : Prop :=
  ∃ j, (l.take j).count refop.acquire + c ≤ (l.take j).count refop.release

/-- What a call of `vgfbm_set_vscreeninfo_user` leaves behind. -/
structure set_var_result where
  ret : Int
  info : fb_info
deriving DecidableEq, Repr

/-- Lines 211-216 of `vgfbm_set_vscreeninfo_user`: `vgfb_check_var(&v, info)`,
and when it does not fail `info->var = v` and `vgfb_set_par(info)`. -/
def check_var_commit (v : fb_var_screeninfo) (info : fb_info) : check_var_result :=
  let r := vgfb_check_var v info
  if r.ret < 0 then r
  else { r with info := { r.info with var := r.var } }

/-- The function `vgfbm_set_vscreeninfo_user` of driver/vgfbmx.c (lines
180-222).  `copy_ok` says that `copy_from_user` succeeded and gave `v`,
`lock_ok` that `lock_fb_info` succeeded; `set_resolution` stands for
`vgfb_set_resolution`, whose body is in a file that is not at hand: it is given
the instance and the requested width and height and returns its return value
and the instance as it leaves it.  Every path through `end:` returns 0. -/
def vgfbm_set_vscreeninfo_user
    (set_resolution : fb_info → Nat → Nat → Int × fb_info)
    (copy_ok lock_ok : Bool) (info : fb_info) (v : fb_var_screeninfo) :
    set_var_result :=
  if ¬ copy_ok then ⟨-EFAULT, info⟩
  else if v.bits_per_pixel ≠ 32 then ⟨-EINVAL, info⟩
  else if v.xoffset ≠ 0 then ⟨-EINVAL, info⟩
  else if v.yoffset > v.yres then ⟨-EINVAL, info⟩
  else if ¬ lock_ok then ⟨-ENODEV, info⟩
  else
    let s := set_resolution info v.xres v.yres
    if s.1 < 0 then ⟨0, s.2⟩
    else ⟨0, (check_var_commit v s.2).info⟩

end Driver

/-! ## `vgfbmx.c`: the registry of live instances -/

namespace Registry

/-- An entry of `vgfb_list`: `ptr` is the address of the `struct vgfbm` (what
`vgfbmx_release` compares), `id` its identifier. -/
structure vgfbm where
  ptr : Nat
  id : Nat
deriving DecidableEq, Repr

/-- The `list_for_each` loop of `vgfbmx_open` (vgfbmx.c lines 49-55), entered
with the running `i` and the position `k` of `it`.  The result is the final
`i` and where `it` points: `some k` for the entry at position `k` (the loop
left by `break`), `none` for the list head (the loop ran to its end). -/
def open_scan : List vgfbm → Nat → Nat → Nat × Option Nat
  | [], i, _ => (i, none)
  | e :: rest, i, k =>
    if e.id ≠ i then (i, some k)
    else open_scan rest ((i + 1) % U64) (k + 1)

/-- The kernel's `list_add(new, it)`: `new` is linked in right after `it`,
which is the list head (`none`) or the entry at position `k`. -/
def list_add (new : vgfbm) (l : List vgfbm) : Option Nat → List vgfbm
  | none => new :: l
  | some k => l.take (k + 1) ++ new :: l.drop (k + 1)

/-- The locked section of `vgfbmx_open` (vgfbmx.c lines 47-59) on the live
list `l`, for the instance that `kzalloc` placed at `ptr`: the assigned
identifier and the new live list. -/
def vgfbmx_open (ptr : Nat) (l : List vgfbm) : Nat × List vgfbm :=
  let s := open_scan l 0 0
  (s.1, list_add { ptr := ptr, id := s.1 } l s.2)

/-- The locked section of `vgfbmx_release` (vgfbmx.c lines 79-89): the first
entry whose address is `ptr` is unlinked. -/
def vgfbmx_release (ptr : Nat) : List vgfbm → List vgfbm
  | [] => []
  | e :: rest =>
    if e.ptr ≠ ptr then e :: vgfbmx_release ptr rest
    else rest

end Registry

/-! ## Predicates used in the statements -/

/-- The entry `m` of a mode-list is a real mode (non-zero width) with the
width and height of the request `v`. -/
def mode_matches (v : fb_var_screeninfo) (m : fb_videomode) : Prop :=
  m.xres ≠ 0 ∧ m.xres = v.xres ∧ m.yres = v.yres

instance (v : fb_var_screeninfo) (m : fb_videomode) : Decidable (mode_matches v m) := by
  unfold mode_matches; infer_instance

/-- The request `v` asks for the width and height the instance `info` has. -/
def same_geometry (v : fb_var_screeninfo) (info : fb_info) : Prop :=
  v.xres = info.var.xres ∧ v.yres = info.var.yres

instance (v : fb_var_screeninfo) (info : fb_info) : Decidable (same_geometry v info) := by
  unfold same_geometry; infer_instance

/-- The Mode invariant as the specification words it: bits-per-pixel is 24 or
32, the x-offset is 0, the y-offset is at most the height, and the virtual
height is twice the height. -/
def mode_invariant (v : fb_var_screeninfo) : Prop :=
  (v.bits_per_pixel = 24 ∨ v.bits_per_pixel = 32) ∧ v.xoffset = 0 ∧
    v.yoffset ≤ v.yres ∧ v.yres_virtual = 2 * v.yres

instance (v : fb_var_screeninfo) : Decidable (mode_invariant v) := by
  unfold mode_invariant; infer_instance

/-- The live list is in strictly ascending identifier order. -/
def ids_ascending (l : List Registry.vgfbm) : Prop :=
  l.Pairwise (fun a b => a.id < b.id)

instance (l : List Registry.vgfbm) : Decidable (ids_ascending l) := by
  unfold ids_ascending; infer_instance

/-! ## Concrete states used in the examples -/

/-- A mode with every field 0, as `kzalloc` leaves it. -/
def var_zero : fb_var_screeninfo :=
  { xres := 0, yres := 0, xres_virtual := 0, yres_virtual := 0, xoffset := 0,
    yoffset := 0, bits_per_pixel := 0, grayscale := 0, red := ⟨0, 0, 0⟩,
    green := ⟨0, 0, 0⟩, blue := ⟨0, 0, 0⟩, transp := ⟨0, 0, 0⟩, nonstd := 0,
    activate := 0, height := 0, width := 0, accel_flags := 0, pixclock := 0,
    left_margin := 0, right_margin := 0, upper_margin := 0, lower_margin := 0,
    hsync_len := 0, vsync_len := 0, sync := 0, vmode := 0, rotate := 0,
    colorspace := 0, reserved := [0, 0, 0, 0] }

/-- A mode of the given width, height and depth, double buffered, no offset. -/
def var_of (w h bpp : Nat) : fb_var_screeninfo :=
  { var_zero with
    xres := w, yres := h, xres_virtual := w, yres_virtual := 2 * h,
    bits_per_pixel := bpp }

/-- A mode-list entry of the given width and height. -/
def videomode_of (w h : Nat) : fb_videomode :=
  { name := "", refresh := 60, xres := w, yres := h, pixclock := 0,
    left_margin := 0, right_margin := 0, upper_margin := 0, lower_margin := 0,
    hsync_len := 0, vsync_len := 0, sync := 0, vmode := 0, flag := 0 }

/-- A request for the given width, height, depth and y-offset; every other
field is 0. -/
def request_of (w h bpp yoff : Nat) : fb_var_screeninfo :=
  { var_zero with xres := w, yres := h, bits_per_pixel := bpp, yoffset := yoff }

/-- The 24 bits-per-pixel mode of the given width and height with its lanes. -/
def var24_of (w h : Nat) : fb_var_screeninfo :=
  { var_of w h 24 with red := ⟨0, 8, 0⟩, green := ⟨8, 8, 0⟩, blue := ⟨16, 8, 0⟩ }

/-! ## Lemmas on the mode-list scan -/

/-- The scan ends with `found` set exactly when it was set on entry or the
list has a real mode of the requested width and height. -/
theorem modelist_scan_found (tmp : fb_var_screeninfo) (l : List fb_videomode) :
    ∀ f : Bool, (modelist_scan tmp l f).1 = true ↔
      (f = true ∨ ∃ m ∈ l, mode_matches tmp m) := by
  induction l with
  | nil => intro f; simp [modelist_scan]
  | cons a rest ih =>
    intro f
    unfold modelist_scan
    split_ifs with h0 h1
    · have hm : ¬ mode_matches tmp a := fun h => h.1 h0
      simp only [ih, List.exists_mem_cons_iff, hm, false_or]
    · have hm : mode_matches tmp a := ⟨h0, h1.1, h1.2⟩
      simp only [ih, List.exists_mem_cons_iff, hm, true_or, or_true]
    · have hm : ¬ mode_matches tmp a := fun h => h1 ⟨h.2.1, h.2.2⟩
      simp only [ih, List.exists_mem_cons_iff, hm, false_or]

/-- The scan keeps exactly the placeholders and the entries of the requested
width and height, in their order. -/
theorem modelist_scan_list (tmp : fb_var_screeninfo) (l : List fb_videomode) :
    ∀ f : Bool, (modelist_scan tmp l f).2 =
      l.filter (fun m => decide (m.xres = 0 ∨ (m.xres = tmp.xres ∧ m.yres = tmp.yres))) := by
  induction l with
  | nil => intro f; simp [modelist_scan]
  | cons a rest ih =>
    intro f
    unfold modelist_scan
    split_ifs with h0 h1
    · have hk : decide (a.xres = 0 ∨ (a.xres = tmp.xres ∧ a.yres = tmp.yres)) = true :=
        decide_eq_true (Or.inl h0)
      simp only [List.filter_cons, hk, if_true, ih]
    · have hk : decide (a.xres = 0 ∨ (a.xres = tmp.xres ∧ a.yres = tmp.yres)) = true :=
        decide_eq_true (Or.inr h1)
      simp only [List.filter_cons, hk, if_true, ih]
    · have hk : ¬ (decide (a.xres = 0 ∨ (a.xres = tmp.xres ∧ a.yres = tmp.yres)) = true) := by
        intro h
        rcases of_decide_eq_true h with h | h
        · exact h0 h
        · exact h1 h
      simp only [List.filter_cons, hk, if_false, ih, Bool.false_eq_true]

/-- The return value and the effects of `vgfb_check_var`, path by path. -/
theorem check_var_cases (var : fb_var_screeninfo) (info : fb_info) :
    (((var.bits_per_pixel ≠ 24 ∧ var.bits_per_pixel ≠ 32) ∨ var.xoffset ≠ 0 ∨
        var.yoffset > var.yres) ∧
      vgfb_check_var var info = ⟨-EINVAL, var, info⟩) ∨
    ((var.bits_per_pixel = 24 ∨ var.bits_per_pixel = 32) ∧ var.xoffset = 0 ∧
      var.yoffset ≤ var.yres ∧ ¬ same_geometry var info ∧
      (¬ ∃ m ∈ info.modelist, mode_matches var m) ∧
      vgfb_check_var var info =
        ⟨-EINVAL, var, { info with modelist := (modelist_scan var info.modelist false).2 }⟩) ∨
    ((var.bits_per_pixel = 24 ∨ var.bits_per_pixel = 32) ∧ var.xoffset = 0 ∧
      var.yoffset ≤ var.yres ∧ ¬ same_geometry var info ∧
      (∃ m ∈ info.modelist, mode_matches var m) ∧
      vgfb_check_var var info =
        ⟨0, check_var_writeback var
              { info with modelist := (modelist_scan var info.modelist false).2 },
          { info with modelist := (modelist_scan var info.modelist false).2 }⟩) ∨
    ((var.bits_per_pixel = 24 ∨ var.bits_per_pixel = 32) ∧ var.xoffset = 0 ∧
      var.yoffset ≤ var.yres ∧ same_geometry var info ∧
      vgfb_check_var var info = ⟨0, check_var_writeback var info, info⟩) := by
  have hscan := modelist_scan_found var info.modelist false
  unfold vgfb_check_var same_geometry
  simp only []
  split_ifs with h1 h2 h3 h4 h5
  · exact Or.inl ⟨Or.inl h1, rfl⟩
  · exact Or.inl ⟨Or.inr (Or.inl h2), rfl⟩
  · exact Or.inl ⟨Or.inr (Or.inr h3), rfl⟩
  · exact Or.inr (Or.inr (Or.inr ⟨by omega, by omega, by omega, h4, rfl⟩))
  · refine Or.inr (Or.inr (Or.inl ⟨by omega, by omega, by omega, h4, ?_, rfl⟩))
    simpa using hscan.mp h5
  · refine Or.inr (Or.inl ⟨by omega, by omega, by omega, h4, ?_, rfl⟩)
    intro h
    exact h5 (hscan.mpr (Or.inr h))

/-! ## C1: identifiers handed out by the registry -/

/-- C1 (does not hold of the code): three opens from the empty live list.  The
first gets identifier 0 and the second 1, but `list_add` links the second entry
in right behind the list head, so the live list is then 1, 0; the scan of the
third open stops at once and hands out 0, the identifier of a live instance,
while the smallest identifier not in use is 2. -/
theorem registry_open_reuses_live_identifier :
    (Registry.vgfbmx_open 100 []) = (0, [⟨100, 0⟩]) ∧
    (Registry.vgfbmx_open 101 [⟨100, 0⟩]) = (1, [⟨101, 1⟩, ⟨100, 0⟩]) ∧
    (Registry.vgfbmx_open 102 [⟨101, 1⟩, ⟨100, 0⟩]) =
      (0, [⟨101, 1⟩, ⟨102, 0⟩, ⟨100, 0⟩]) ∧
    (∃ e ∈ (Registry.vgfbmx_open 101 (Registry.vgfbmx_open 100 []).2).2,
      e.id = (Registry.vgfbmx_open 102
        (Registry.vgfbmx_open 101 (Registry.vgfbmx_open 100 []).2).2).1) := by
  decide

/-! ## C2: when the validator rejects -/

/-- C2: `vgfb_check_var` returns `-EINVAL` exactly when bits-per-pixel is
neither 24 nor 32, or the x-offset is not 0, or the y-offset exceeds the
requested height, or the requested width and height are not the current ones
and no real (non-zero width) mode-list entry has them; for every other
request it returns 0. -/
theorem check_var_rejects_iff (var : fb_var_screeninfo) (info : fb_info) :
    ((vgfb_check_var var info).ret = -EINVAL ↔
      ((var.bits_per_pixel ≠ 24 ∧ var.bits_per_pixel ≠ 32) ∨ var.xoffset ≠ 0 ∨
        var.yoffset > var.yres ∨
        (¬ same_geometry var info ∧ ¬ ∃ m ∈ info.modelist, mode_matches var m))) ∧
    (¬ ((var.bits_per_pixel ≠ 24 ∧ var.bits_per_pixel ≠ 32) ∨ var.xoffset ≠ 0 ∨
        var.yoffset > var.yres ∨
        (¬ same_geometry var info ∧ ¬ ∃ m ∈ info.modelist, mode_matches var m)) →
      (vgfb_check_var var info).ret = 0) := by
  have hne : (0 : Int) ≠ -EINVAL := by decide
  rcases check_var_cases var info with ⟨hc, he⟩ | ⟨hb, hx, hy, hg, hm, he⟩ |
    ⟨hb, hx, hy, hg, hm, he⟩ | ⟨hb, hx, hy, hg, he⟩
  · rw [he]
    refine ⟨⟨fun _ => ?_, fun _ => rfl⟩, fun h => absurd ?_ h⟩ <;> tauto
  · rw [he]
    refine ⟨⟨fun _ => ?_, fun _ => rfl⟩, fun h => absurd ?_ h⟩ <;> tauto
  · rw [he]
    refine ⟨⟨fun h => absurd h hne, fun h => ?_⟩, fun _ => rfl⟩
    rcases h with h | h | h | h
    · omega
    · exact absurd hx h
    · omega
    · exact absurd hm h.2
  · rw [he]
    refine ⟨⟨fun h => absurd h hne, fun h => ?_⟩, fun _ => rfl⟩
    rcases h with h | h | h | h
    · omega
    · exact absurd hx h
    · omega
    · exact absurd hg h.1

/-! ## C3: geometry of the committed mode -/

/-- The geometry fields that the write-back of `vgfb_check_var` sets. -/
theorem check_var_writeback_geometry (tmp : fb_var_screeninfo) (info : fb_info) :
    (check_var_writeback tmp info).xres = tmp.xres ∧
    (check_var_writeback tmp info).yres = tmp.yres ∧
    (check_var_writeback tmp info).xres_virtual = tmp.xres ∧
    (check_var_writeback tmp info).yres_virtual = (tmp.yres * 2) % U32 ∧
    (check_var_writeback tmp info).xoffset = tmp.xoffset ∧
    (check_var_writeback tmp info).yoffset = tmp.yoffset ∧
    (check_var_writeback tmp info).bits_per_pixel = info.var.bits_per_pixel := by
  unfold check_var_writeback
  simp only []
  split_ifs <;> exact ⟨rfl, rfl, rfl, rfl, rfl, rfl, rfl⟩

/-- An accepted request: what `vgfb_check_var` leaves behind. -/
theorem check_var_accepted (var : fb_var_screeninfo) (info : fb_info)
    (h : (vgfb_check_var var info).ret = 0) :
    (var.bits_per_pixel = 24 ∨ var.bits_per_pixel = 32) ∧ var.xoffset = 0 ∧
    var.yoffset ≤ var.yres ∧
    (vgfb_check_var var info).info.var = info.var ∧
    (vgfb_check_var var info).var =
      check_var_writeback var (vgfb_check_var var info).info := by
  have hne : (-EINVAL : Int) ≠ 0 := by decide
  rcases check_var_cases var info with ⟨_, he⟩ | ⟨_, _, _, _, _, he⟩ |
    ⟨hb, hx, hy, _, _, he⟩ | ⟨hb, hx, hy, _, he⟩
  · rw [he] at h; exact absurd h hne
  · rw [he] at h; exact absurd h hne
  · rw [he]; exact ⟨hb, hx, hy, rfl, rfl⟩
  · rw [he]; exact ⟨hb, hx, hy, rfl, rfl⟩

/-- C3 (as stated, refuted): a request for height 2^31 whose width and height
are in the mode-list is accepted, and the committed virtual height is
`(2^31 * 2) mod 2^32 = 0`, not twice the height. -/
theorem check_var_virtual_height_wraps :
    (vgfb_check_var (request_of 800 2147483648 32 0)
      ⟨var_of 640 480 32, [videomode_of 800 2147483648]⟩).ret = 0 ∧
    (vgfb_check_var (request_of 800 2147483648 32 0)
      ⟨var_of 640 480 32, [videomode_of 800 2147483648]⟩).var.yres = 2147483648 ∧
    (vgfb_check_var (request_of 800 2147483648 32 0)
      ⟨var_of 640 480 32, [videomode_of 800 2147483648]⟩).var.yres_virtual = 0 ∧
    (vgfb_check_var (request_of 800 2147483648 32 0)
      ⟨var_of 640 480 32, [videomode_of 800 2147483648]⟩).var.yres_virtual ≠
      2 * (vgfb_check_var (request_of 800 2147483648 32 0)
        ⟨var_of 640 480 32, [videomode_of 800 2147483648]⟩).var.yres := by
  decide

/-- C3 (amended): for every request that `vgfb_check_var` accepts, the mode
written back has the requested width and height, virtual width equal to the
width, virtual height equal to twice the height reduced modulo 2^32 (so
exactly twice the height whenever the height is below 2^31), the requested
x-offset and y-offset, and a y-offset that is at most the height. -/
theorem check_var_committed_geometry (var : fb_var_screeninfo) (info : fb_info)
    (h : (vgfb_check_var var info).ret = 0) :
    (vgfb_check_var var info).var.xres = var.xres ∧
    (vgfb_check_var var info).var.yres = var.yres ∧
    (vgfb_check_var var info).var.xres_virtual = (vgfb_check_var var info).var.xres ∧
    (vgfb_check_var var info).var.yres_virtual = (2 * var.yres) % 4294967296 ∧
    (var.yres < 2147483648 →
      (vgfb_check_var var info).var.yres_virtual =
        2 * (vgfb_check_var var info).var.yres) ∧
    (vgfb_check_var var info).var.xoffset = var.xoffset ∧
    (vgfb_check_var var info).var.yoffset = var.yoffset ∧
    (vgfb_check_var var info).var.yoffset ≤ (vgfb_check_var var info).var.yres := by
  obtain ⟨_, _, hy, _, hv⟩ := check_var_accepted var info h
  obtain ⟨g1, g2, g3, g4, g5, g6, _⟩ :=
    check_var_writeback_geometry var (vgfb_check_var var info).info
  rw [hv, g1, g2, g3, g4, g5, g6]
  unfold U32
  refine ⟨rfl, rfl, rfl, by rw [Nat.mul_comm], fun hlt => ?_, rfl, rfl, hy⟩
  omega

/-- The amended C3 at a request for 800x600 at 32 bits-per-pixel with y-offset
600, on an instance at 640x480 whose mode-list has 800x600. -/
theorem check_var_committed_geometry_witness :
    (vgfb_check_var (request_of 800 600 32 600)
      ⟨var_of 640 480 32, [videomode_of 0 0, videomode_of 800 600]⟩).ret = 0 ∧
    (vgfb_check_var (request_of 800 600 32 600)
      ⟨var_of 640 480 32, [videomode_of 0 0, videomode_of 800 600]⟩).var.yres_virtual =
      (2 * (request_of 800 600 32 600).yres) % 4294967296 :=
  ⟨by decide,
    (check_var_committed_geometry (request_of 800 600 32 600)
      ⟨var_of 640 480 32, [videomode_of 0 0, videomode_of 800 600]⟩ (by decide)).2.2.2.1⟩

/-! ## C4: depth and lane layout of the committed mode -/

/-- C4 (does not hold of the code): two accepted requests for 32
bits-per-pixel.  On an instance at 640x480 and 32 bits-per-pixel whose lanes
are all zero, the request for 800x600 (in the mode-list) is accepted and the
lanes stay as they were: red has length 0 and the transparency lane has
length 0, because the second branch of the source tests for 24 again.  On an instance
at 800x600 and 24 bits-per-pixel, the request for the same width and
height at 32 bits-per-pixel is accepted and the committed mode still has 24
bits-per-pixel and a transparency lane of length 0, because `*var = info->var`
replaces the requested depth by the previous one. -/
theorem check_var_ignores_requested_depth :
    (vgfb_check_var (request_of 800 600 32 0)
      ⟨var_of 640 480 32, [videomode_of 800 600]⟩).ret = 0 ∧
    (vgfb_check_var (request_of 800 600 32 0)
      ⟨var_of 640 480 32, [videomode_of 800 600]⟩).var.bits_per_pixel = 32 ∧
    (vgfb_check_var (request_of 800 600 32 0)
      ⟨var_of 640 480 32, [videomode_of 800 600]⟩).var.red.length = 0 ∧
    (vgfb_check_var (request_of 800 600 32 0)
      ⟨var_of 640 480 32, [videomode_of 800 600]⟩).var.transp.length = 0 ∧
    (vgfb_check_var (request_of 800 600 32 0) ⟨var24_of 800 600, []⟩).ret = 0 ∧
    (vgfb_check_var (request_of 800 600 32 0)
      ⟨var24_of 800 600, []⟩).var.bits_per_pixel = 24 ∧
    (vgfb_check_var (request_of 800 600 32 0)
      ⟨var24_of 800 600, []⟩).var.transp.length = 0 := by
  decide

/-! ## C5: side effects of a rejected request -/

/-- C5 (does not hold of the code): on an instance at 640x480 whose mode-list
is placeholder, 640x480, 1024x768, the request for 800x600 at 32
bits-per-pixel is rejected with `-EINVAL`; the request and the committed mode
are as before, but the mode-list has lost every real mode, the current one
included, because the scan unlinks entries before it is known whether the
request will be found. -/
theorem check_var_rejection_prunes_modelist :
    (vgfb_check_var (request_of 800 600 32 0)
      ⟨var_of 640 480 32,
        [videomode_of 0 0, videomode_of 640 480, videomode_of 1024 768]⟩).ret = -EINVAL ∧
    (vgfb_check_var (request_of 800 600 32 0)
      ⟨var_of 640 480 32,
        [videomode_of 0 0, videomode_of 640 480, videomode_of 1024 768]⟩).var =
      request_of 800 600 32 0 ∧
    (vgfb_check_var (request_of 800 600 32 0)
      ⟨var_of 640 480 32,
        [videomode_of 0 0, videomode_of 640 480, videomode_of 1024 768]⟩).info.var =
      var_of 640 480 32 ∧
    (vgfb_check_var (request_of 800 600 32 0)
      ⟨var_of 640 480 32,
        [videomode_of 0 0, videomode_of 640 480, videomode_of 1024 768]⟩).info.modelist =
      [videomode_of 0 0] ∧
    (vgfb_check_var (request_of 800 600 32 0)
      ⟨var_of 640 480 32,
        [videomode_of 0 0, videomode_of 640 480, videomode_of 1024 768]⟩).info.modelist ≠
      [videomode_of 0 0, videomode_of 640 480, videomode_of 1024 768] := by
  decide

/-! ## C6: the mode-list after an accepted change of geometry -/

/-- C6: after an accepted request whose width and height are not the current
ones, the mode-list is the previous mode-list restricted to the placeholders
(zero width) and the entries of the requested width and height, in their
previous order (so every other entry is gone), and it still has a real mode of
the requested width and height. -/
theorem check_var_narrows_modelist (var : fb_var_screeninfo) (info : fb_info)
    (h : (vgfb_check_var var info).ret = 0) (hg : ¬ same_geometry var info) :
    (vgfb_check_var var info).info.modelist =
      info.modelist.filter
        (fun m => decide (m.xres = 0 ∨ (m.xres = var.xres ∧ m.yres = var.yres))) ∧
    (vgfb_check_var var info).info.modelist.Sublist info.modelist ∧
    (∀ m, m ∈ (vgfb_check_var var info).info.modelist ↔
      (m ∈ info.modelist ∧ (m.xres = 0 ∨ (m.xres = var.xres ∧ m.yres = var.yres)))) ∧
    (∃ m ∈ (vgfb_check_var var info).info.modelist,
      m.xres ≠ 0 ∧ m.xres = var.xres ∧ m.yres = var.yres) := by
  have hne : (-EINVAL : Int) ≠ 0 := by decide
  have hl := modelist_scan_list var info.modelist false
  rcases check_var_cases var info with ⟨_, he⟩ | ⟨_, _, _, _, _, he⟩ |
    ⟨_, _, _, _, hm, he⟩ | ⟨_, _, _, hs, _⟩
  · rw [he] at h; exact absurd h hne
  · rw [he] at h; exact absurd h hne
  · rw [he]
    simp only [hl]
    refine ⟨trivial, List.filter_sublist _, fun m => ?_, ?_⟩
    · simp only [List.mem_filter, decide_eq_true_eq]
    · obtain ⟨m, hmem, hmm⟩ := hm
      refine ⟨m, ?_, hmm⟩
      simp only [List.mem_filter, decide_eq_true_eq]
      exact ⟨hmem, Or.inr hmm.2⟩
  · exact absurd hs hg

/-- C6 at the request for 800x600 on an instance at 640x480 whose mode-list is
placeholder, 640x480, 800x600, 1024x768: placeholder and 800x600 are left. -/
theorem check_var_narrows_modelist_witness :
    (vgfb_check_var (request_of 800 600 32 0)
      ⟨var_of 640 480 32, [videomode_of 0 0, videomode_of 640 480,
        videomode_of 800 600, videomode_of 1024 768]⟩).ret = 0 ∧
    ¬ same_geometry (request_of 800 600 32 0)
      ⟨var_of 640 480 32, [videomode_of 0 0, videomode_of 640 480,
        videomode_of 800 600, videomode_of 1024 768]⟩ ∧
    (vgfb_check_var (request_of 800 600 32 0)
      ⟨var_of 640 480 32, [videomode_of 0 0, videomode_of 640 480,
        videomode_of 800 600, videomode_of 1024 768]⟩).info.modelist =
      [videomode_of 0 0, videomode_of 640 480, videomode_of 800 600,
        videomode_of 1024 768].filter
        (fun m => decide (m.xres = 0 ∨
          (m.xres = (request_of 800 600 32 0).xres ∧
            m.yres = (request_of 800 600 32 0).yres))) :=
  ⟨by decide, by decide,
    (check_var_narrows_modelist (request_of 800 600 32 0)
      ⟨var_of 640 480 32, [videomode_of 0 0, videomode_of 640 480,
        videomode_of 800 600, videomode_of 1024 768]⟩ (by decide) (by decide)).1⟩

/-! ## C7: the set-variable-info control request -/

/-- The commit step keeps the validator's return value; when the validator
rejects, the committed mode is untouched, and when it accepts, the validated
mode becomes the committed mode. -/
theorem check_var_commit_cases (v : fb_var_screeninfo) (info : fb_info) :
    (Driver.check_var_commit v info).ret = (vgfb_check_var v info).ret ∧
    ((vgfb_check_var v info).ret ≠ 0 →
      (Driver.check_var_commit v info).info.var = info.var) ∧
    ((vgfb_check_var v info).ret = 0 →
      (Driver.check_var_commit v info).info.var = (vgfb_check_var v info).var) ∧
    (Driver.check_var_commit v info).info.modelist =
      (vgfb_check_var v info).info.modelist := by
  have hneg : (-EINVAL : Int) < 0 := by decide
  have hne : (-EINVAL : Int) ≠ 0 := by decide
  have h0 : ¬ ((0 : Int) < 0) := by decide
  unfold Driver.check_var_commit
  rcases check_var_cases v info with ⟨_, he⟩ | ⟨_, _, _, _, _, he⟩ |
    ⟨_, _, _, _, _, he⟩ | ⟨_, _, _, _, he⟩
  · simp only [he, hneg, if_true]
    exact ⟨trivial, fun _ => trivial, fun h => absurd h hne, trivial⟩
  · simp only [he, hneg, if_true]
    exact ⟨trivial, fun _ => trivial, fun h => absurd h hne, trivial⟩
  · simp only [he, h0, if_false]
    exact ⟨trivial, fun h => absurd rfl h, fun _ => trivial, trivial⟩
  · simp only [he, h0, if_false]
    exact ⟨trivial, fun h => absurd rfl h, fun _ => trivial, trivial⟩

/-- C7 (as stated, refuted): on an instance at 800x600 and 24 bits-per-pixel,
with a resolution step that succeeds and leaves the instance as it is, the
validator accepts the request for 800x600 at 24 bits-per-pixel, and the
control request returns `-EINVAL`: its own guard admits 32 bits-per-pixel
only. -/
theorem set_vscreeninfo_refuses_24bpp :
    (vgfb_check_var (request_of 800 600 24 0)
      ⟨var24_of 800 600, [videomode_of 800 600]⟩).ret = 0 ∧
    (Driver.vgfbm_set_vscreeninfo_user (fun info _ _ => (0, info)) true true
      ⟨var24_of 800 600, [videomode_of 800 600]⟩ (request_of 800 600 24 0)).ret =
      -EINVAL := by
  decide

/-- The return value of the control request when the validator rejects: on an instance
at 640x480 whose mode-list lacks 800x600, with a resolution step that
succeeds and leaves the instance as it is, the validator rejects the request
for 800x600 at 32 bits-per-pixel and the control request returns 0 (the
statement after `end:` is `return 0`); the committed mode is unchanged. -/
theorem set_vscreeninfo_returns_zero_on_rejection :
    (vgfb_check_var (request_of 800 600 32 0)
      ⟨var_of 640 480 32, [videomode_of 640 480]⟩).ret = -EINVAL ∧
    (Driver.vgfbm_set_vscreeninfo_user (fun info _ _ => (0, info)) true true
      ⟨var_of 640 480 32, [videomode_of 640 480]⟩ (request_of 800 600 32 0)).ret = 0 ∧
    (Driver.vgfbm_set_vscreeninfo_user (fun info _ _ => (0, info)) true true
      ⟨var_of 640 480 32, [videomode_of 640 480]⟩ (request_of 800 600 32 0)).info.var =
      var_of 640 480 32 := by
  decide

/-- C7 (amended): when the copy from the caller, the locking and the
resolution step succeed, a request whose bits-per-pixel is not 32 (or whose
x-offset is not 0, or whose y-offset exceeds its height) is refused with
`-EINVAL` before the resolution step, the instance untouched; a request at 32
bits-per-pixel that the validator accepts (on the instance as the resolution
step left it) makes the control request return success with the validated
mode as the committed mode; and a request at 32 bits-per-pixel that the
validator rejects leaves the committed mode as the resolution step left it. -/
theorem set_vscreeninfo_commits_validated_mode
    (set_resolution : fb_info → Nat → Nat → Int × fb_info)
    (info : fb_info) (v : fb_var_screeninfo)
    (hres : 0 ≤ (set_resolution info v.xres v.yres).1) :
    ((v.bits_per_pixel ≠ 32 ∨ v.xoffset ≠ 0 ∨ v.yoffset > v.yres) →
      Driver.vgfbm_set_vscreeninfo_user set_resolution true true info v =
        ⟨-EINVAL, info⟩) ∧
    (v.bits_per_pixel = 32 →
      (vgfb_check_var v (set_resolution info v.xres v.yres).2).ret = 0 →
      (Driver.vgfbm_set_vscreeninfo_user set_resolution true true info v).ret = 0 ∧
      (Driver.vgfbm_set_vscreeninfo_user set_resolution true true info v).info.var =
        (vgfb_check_var v (set_resolution info v.xres v.yres).2).var) ∧
    (v.bits_per_pixel = 32 → v.xoffset = 0 → v.yoffset ≤ v.yres →
      (vgfb_check_var v (set_resolution info v.xres v.yres).2).ret ≠ 0 →
      (Driver.vgfbm_set_vscreeninfo_user set_resolution true true info v).info.var =
        (set_resolution info v.xres v.yres).2.var) := by
  have hlt : ¬ ((set_resolution info v.xres v.yres).1 < 0) := by omega
  refine ⟨fun h => ?_, fun hb hv => ?_, fun hb hx hy hv => ?_⟩
  · unfold Driver.vgfbm_set_vscreeninfo_user
    by_cases h1 : v.bits_per_pixel ≠ 32
    · simp [h1]
    · by_cases h2 : v.xoffset ≠ 0
      · simp [h1, h2]
      · have h3 : v.yoffset > v.yres := by tauto
        simp [h1, h2, h3]
  · obtain ⟨_, hx, hy, _, _⟩ :=
      check_var_accepted v (set_resolution info v.xres v.yres).2 hv
    have hy2 : ¬ (v.yoffset > v.yres) := by omega
    have hc := (check_var_commit_cases v (set_resolution info v.xres v.yres).2).2.2.1 hv
    unfold Driver.vgfbm_set_vscreeninfo_user
    simp only [hb, hx, hy2, hlt, ne_eq, not_true_eq_false, not_false_eq_true,
      if_false, if_true, Bool.true_eq_false, Bool.not_eq_true]
    exact ⟨trivial, hc⟩
  · have hy2 : ¬ (v.yoffset > v.yres) := by omega
    have hc := (check_var_commit_cases v (set_resolution info v.xres v.yres).2).2.1 hv
    unfold Driver.vgfbm_set_vscreeninfo_user
    simp only [hb, hx, hy2, hlt, ne_eq, not_true_eq_false, not_false_eq_true,
      if_false, if_true, Bool.true_eq_false, Bool.not_eq_true]
    exact hc

/-- The amended C7 at the request for 800x600 at 32 bits-per-pixel on an instance
at 640x480 whose mode-list has 800x600, with a resolution step that
succeeds and leaves the instance as it is: the committed mode is 800x600 with
virtual height 1200. -/
theorem set_vscreeninfo_commits_validated_mode_witness :
    (0 : Int) ≤ ((fun (info : fb_info) (_ _ : Nat) => ((0 : Int), info))
      ⟨var_of 640 480 32, [videomode_of 800 600]⟩
      (request_of 800 600 32 0).xres (request_of 800 600 32 0).yres).1 ∧
    (Driver.vgfbm_set_vscreeninfo_user (fun info _ _ => (0, info)) true true
      ⟨var_of 640 480 32, [videomode_of 800 600]⟩ (request_of 800 600 32 0)).ret = 0 ∧
    (Driver.vgfbm_set_vscreeninfo_user (fun info _ _ => (0, info)) true true
      ⟨var_of 640 480 32, [videomode_of 800 600]⟩ (request_of 800 600 32 0)).info.var =
      var_of 800 600 32 :=
  ⟨by decide,
    ((set_vscreeninfo_commits_validated_mode (fun info _ _ => (0, info))
      ⟨var_of 640 480 32, [videomode_of 800 600]⟩ (request_of 800 600 32 0)
      (by decide)).2.1 (by decide) (by decide)).1,
    by decide⟩

/-! ## C8: pan -/

/-- C8: on an instance whose virtual width is its width and whose virtual
height is twice its height, `vgfb_pan_display` succeeds exactly when the
requested x-offset is 0 and the requested y-offset is at most virtual height
minus height; on success the two offsets of the instance become the requested
ones and nothing else changes; on failure it returns `-EINVAL` and the instance
is unchanged.  With x-offset 0, the y-offsets 0 and height succeed
and the y-offset height + 1 fails. -/
theorem pan_display_spec (var : fb_var_screeninfo) (info : fb_info)
    (hx : info.var.xres_virtual = info.var.xres)
    (hy : info.var.yres_virtual = 2 * info.var.yres)
    (hr : info.var.yres_virtual < 4294967296) :
    ((vgfb_pan_display var info).ret = 0 ↔
      (var.xoffset = 0 ∧ var.yoffset ≤ info.var.yres_virtual - info.var.yres)) ∧
    ((vgfb_pan_display var info).ret = 0 →
      (vgfb_pan_display var info).info =
        { info with
          var := { info.var with xoffset := var.xoffset, yoffset := var.yoffset } }) ∧
    ((vgfb_pan_display var info).ret ≠ 0 →
      (vgfb_pan_display var info).ret = -EINVAL ∧
      (vgfb_pan_display var info).info = info) ∧
    (var.xoffset = 0 → (var.yoffset = 0 ∨ var.yoffset = info.var.yres) →
      (vgfb_pan_display var info).ret = 0) ∧
    (var.yoffset = info.var.yres + 1 →
      (vgfb_pan_display var info).ret = -EINVAL) := by
  have hne : (-EINVAL : Int) ≠ 0 := by decide
  have ex : (info.var.xres_virtual + U32 - info.var.xres) % U32 = 0 := by
    unfold U32; omega
  have ey : (info.var.yres_virtual + U32 - info.var.yres) % U32 = info.var.yres := by
    unfold U32; omega
  have ed : info.var.yres_virtual - info.var.yres = info.var.yres := by omega
  unfold vgfb_pan_display
  rw [ex, ey, ed]
  split_ifs with h1 h2
  · refine ⟨⟨fun h => absurd h hne, fun h => ?_⟩, fun h => absurd h hne,
      fun _ => ⟨rfl, rfl⟩, fun h _ => ?_, fun _ => rfl⟩ <;> omega
  · refine ⟨⟨fun h => absurd h hne, fun h => ?_⟩, fun h => absurd h hne,
      fun _ => ⟨rfl, rfl⟩, fun _ h => ?_, fun _ => rfl⟩ <;> omega
  · refine ⟨⟨fun _ => ⟨by omega, by omega⟩, fun _ => rfl⟩, fun _ => rfl,
      fun h => absurd rfl h, fun _ _ => rfl, fun h => ?_⟩
    omega

/-- C8 at 800x600: the pan to (0, 600) succeeds and the pan to (0, 601) is
rejected with `-EINVAL`. -/
theorem pan_display_spec_witness :
    (var_of 800 600 32).xres_virtual = (var_of 800 600 32).xres ∧
    (var_of 800 600 32).yres_virtual = 2 * (var_of 800 600 32).yres ∧
    (var_of 800 600 32).yres_virtual < 4294967296 ∧
    (vgfb_pan_display (request_of 0 0 0 600) ⟨var_of 800 600 32, []⟩).ret = 0 ∧
    (vgfb_pan_display (request_of 0 0 0 601) ⟨var_of 800 600 32, []⟩).ret = -EINVAL :=
  ⟨by decide, by decide, by decide,
    (pan_display_spec (request_of 0 0 0 600) ⟨var_of 800 600 32, []⟩
      (by decide) (by decide) (by decide)).2.2.2.1 (by decide) (Or.inr (by decide)),
    (pan_display_spec (request_of 0 0 0 601) ⟨var_of 800 600 32, []⟩
      (by decide) (by decide) (by decide)).2.2.2.2 (by decide)⟩

/-! ## C9: the use-count -/

/-- The three paths of `vgfbm_release` by use-count. -/
theorem release_cases (fb : Driver.vgfbm) :
    (fb.count = 0 → Driver.vgfbm_release fb = ⟨fb, Driver.release_path.underflow⟩) ∧
    (fb.count = 1 →
      Driver.vgfbm_release fb = ⟨⟨0⟩, Driver.release_path.freed⟩) ∧
    (1 < fb.count →
      Driver.vgfbm_release fb = ⟨⟨fb.count - 1⟩, Driver.release_path.still_used⟩) := by
  unfold Driver.vgfbm_release
  refine ⟨fun h => ?_, fun h => ?_, fun h => ?_⟩
  · simp [h]
  · simp [h]
  · have h0 : fb.count ≠ 0 := by omega
    have h1 : fb.count - 1 ≠ 0 := by omega
    simp [h0, h1]

/-- A successful `vgfbm_acquire` on a use-count in range adds one to it. -/
theorem acquire_success (fb : Driver.vgfbm) (hr : fb.count < U64)
    (h : (Driver.vgfbm_acquire fb).1 = true) :
    (Driver.vgfbm_acquire fb).2.count = fb.count + 1 ∧ fb.count + 1 < U64 := by
  unfold Driver.vgfbm_acquire at h ⊢
  by_cases hz : (fb.count + 1) % U64 = 0
  · simp [hz] at h
  · simp only [hz, if_false]
    unfold U64 at *
    omega

/-- No moment uses up a positive use-count on the empty sequence. -/
theorem deficit_nil (c : Nat) (hc : 0 < c) : ¬ Driver.deficit_reached c [] := by
  rintro ⟨j, hj⟩
  simp at hj
  omega

/-- An acquire in front raises the use-count to be used up by one. -/
theorem deficit_cons_acquire (c : Nat) (hc : 0 < c) (l : List Driver.refop) :
    Driver.deficit_reached c (Driver.refop.acquire :: l) ↔
      Driver.deficit_reached (c + 1) l := by
  constructor
  · rintro ⟨j, hj⟩
    cases j with
    | zero => simp at hj; omega
    | succ j =>
      refine ⟨j, ?_⟩
      simp [List.count_cons] at hj
      omega
  · rintro ⟨j, hj⟩
    refine ⟨j + 1, ?_⟩
    simp [List.count_cons]
    omega

/-- A release in front uses up one reference. -/
theorem deficit_cons_release (c : Nat) (hc : 0 < c) (l : List Driver.refop) :
    Driver.deficit_reached c (Driver.refop.release :: l) ↔
      (c = 1 ∨ Driver.deficit_reached (c - 1) l) := by
  constructor
  · rintro ⟨j, hj⟩
    cases j with
    | zero => simp at hj; omega
    | succ j =>
      by_cases h1 : c = 1
      · exact Or.inl h1
      · refine Or.inr ⟨j, ?_⟩
        simp [List.count_cons] at hj
        omega
  · rintro (h1 | ⟨j, hj⟩)
    · refine ⟨1, ?_⟩
      simp [List.count_cons]
      omega
    · refine ⟨j + 1, ?_⟩
      simp [List.count_cons]
      omega

/-- Once the use-count is 0, calls that never acquire free nothing more. -/
theorem run_frees_dead (ops : List Driver.refop) :
    ∀ fb : Driver.vgfbm, fb.count = 0 → Driver.acquires_on_live ops fb = true →
      Driver.run_frees ops fb = 0 := by
  induction ops with
  | nil => intro fb _ _; rfl
  | cons op rest ih =>
    intro fb h0 hl
    cases op with
    | acquire => simp [Driver.acquires_on_live, h0] at hl
    | release =>
      have hr := (release_cases fb).1 h0
      simp only [Driver.acquires_on_live, hr] at hl
      simp only [Driver.run_frees, hr]
      rw [ih fb h0 hl]
      decide

/-- From a live use-count `c`, with every acquire made on a live instance, the instance
is freed once if the releases ever get `c` ahead of the acquires, and
not at all otherwise. -/
theorem run_frees_live (ops : List Driver.refop) :
    ∀ fb : Driver.vgfbm, 0 < fb.count → fb.count < U64 →
      Driver.acquires_on_live ops fb = true →
      (Driver.deficit_reached fb.count ops → Driver.run_frees ops fb = 1) ∧
      (¬ Driver.deficit_reached fb.count ops → Driver.run_frees ops fb = 0) := by
  induction ops with
  | nil =>
    intro fb hc _ _
    exact ⟨fun h => absurd h (deficit_nil fb.count hc), fun _ => rfl⟩
  | cons op rest ih =>
    intro fb hc hr hl
    cases op with
    | acquire =>
      simp only [Driver.acquires_on_live, Bool.and_eq_true] at hl
      obtain ⟨hcnt, hlt⟩ := acquire_success fb hr hl.1.2
      have ih1 := ih (Driver.vgfbm_acquire fb).2 (by omega) (by omega) hl.2
      rw [hcnt] at ih1
      rw [deficit_cons_acquire fb.count hc rest]
      simpa only [Driver.run_frees] using ih1
    | release =>
      simp only [Driver.acquires_on_live] at hl
      rw [deficit_cons_release fb.count hc rest]
      by_cases h1 : fb.count = 1
      · have hrel := (release_cases fb).2.1 h1
        rw [hrel] at hl
        have hd := run_frees_dead rest ⟨0⟩ rfl hl
        simp only [Driver.run_frees, hrel, hd, if_true]
        exact ⟨fun _ => trivial, fun h => absurd (Or.inl h1) h⟩
      · have hrel := (release_cases fb).2.2 (by omega)
        rw [hrel] at hl
        have ih1 := ih ⟨fb.count - 1⟩ (by show 0 < fb.count - 1; omega)
          (by show fb.count - 1 < U64; omega) hl
        have hnf : ¬ (Driver.release_path.still_used = Driver.release_path.freed) := by
          decide
        simp only [Driver.run_frees, hrel, hnf, if_false, Nat.zero_add]
        refine ⟨fun h => ih1.1 ?_, fun h => ih1.2 ?_⟩
        · rcases h with h | h
          · exact absurd h h1
          · exact h
        · exact fun hd => h (Or.inr hd)

/-- The calls made so far inherit that every acquire is made on a live
instance. -/
theorem acquires_on_live_take (ops : List Driver.refop) :
    ∀ (k : Nat) (fb : Driver.vgfbm), Driver.acquires_on_live ops fb = true →
      Driver.acquires_on_live (ops.take k) fb = true := by
  induction ops with
  | nil => intro k fb _; simp [Driver.acquires_on_live]
  | cons op rest ih =>
    intro k fb hl
    cases k with
    | zero => simp [Driver.acquires_on_live]
    | succ k =>
      cases op with
      | acquire =>
        simp only [Driver.acquires_on_live, Bool.and_eq_true] at hl
        simp only [List.take_succ_cons, Driver.acquires_on_live, Bool.and_eq_true]
        exact ⟨hl.1, ih k _ hl.2⟩
      | release =>
        simp only [Driver.acquires_on_live] at hl
        simp only [List.take_succ_cons, Driver.acquires_on_live]
        exact ih k _ hl

/-- More releases than acquires at some moment among the first `k` calls is
the use-count 1 used up along the first `k` calls. -/
theorem releases_exceed_iff (ops : List Driver.refop) (k : Nat) :
    Driver.releases_exceed ops k ↔ Driver.deficit_reached 1 (ops.take k) := by
  constructor
  · rintro ⟨j, hjk, hj⟩
    refine ⟨j, ?_⟩
    rw [List.take_take, Nat.min_eq_left hjk]
    omega
  · rintro ⟨j, hj⟩
    refine ⟨min j k, Nat.min_le_right j k, ?_⟩
    rw [List.take_take] at hj
    omega

/-- C9 (as stated, refuted): from the opened instance (use-count 1), the calls
release, acquire, release.  Every acquire succeeds; the first release frees
the instance (the releases exceed the acquires for the first time), the
acquire takes the use-count from 0 back to 1, and the last release frees the instance
a second time. -/
theorem release_acquire_release_frees_twice :
    Driver.vgfbmx_open.count = 1 ∧
    Driver.acquires_succeed
      [Driver.refop.release, Driver.refop.acquire, Driver.refop.release]
      Driver.vgfbmx_open = true ∧
    Driver.run_frees [Driver.refop.release] Driver.vgfbmx_open = 1 ∧
    Driver.run_frees
      [Driver.refop.release, Driver.refop.acquire, Driver.refop.release]
      Driver.vgfbmx_open = 2 := by
  decide

/-- C9 (amended): `vgfbm_release` on use-count 0 is refused (the use-count
stays 0, nothing is freed); on a use-count n > 0 it leaves n - 1 and frees the instance
exactly when n = 1.  From the opened instance (use-count 1), for
every sequence of calls in which each `vgfbm_acquire` succeeds and is made
while the use-count is not 0, the number of times the instance has been freed
after the first `k` calls is 1 if the releases have exceeded the acquires at
some moment up to then, and 0 otherwise: it is freed at the first such moment
and never again. -/
theorem use_count_release_spec (fb : Driver.vgfbm) (ops : List Driver.refop) (k : Nat)
    (h : Driver.acquires_on_live ops Driver.vgfbmx_open = true) :
    (fb.count = 0 →
      Driver.vgfbm_release fb = ⟨fb, Driver.release_path.underflow⟩) ∧
    (0 < fb.count →
      (Driver.vgfbm_release fb).fb.count = fb.count - 1 ∧
      ((Driver.vgfbm_release fb).path = Driver.release_path.freed ↔ fb.count = 1)) ∧
    Driver.vgfbmx_open.count = 1 ∧
    (Driver.releases_exceed ops k →
      Driver.run_frees (ops.take k) Driver.vgfbmx_open = 1) ∧
    (¬ Driver.releases_exceed ops k →
      Driver.run_frees (ops.take k) Driver.vgfbmx_open = 0) := by
  have hopen : Driver.vgfbmx_open.count = 1 := by decide
  have hlive := run_frees_live (ops.take k) Driver.vgfbmx_open
    (by rw [hopen]; decide) (by rw [hopen]; decide)
    (acquires_on_live_take ops k Driver.vgfbmx_open h)
  rw [hopen, ← releases_exceed_iff] at hlive
  refine ⟨(release_cases fb).1, fun hpos => ?_, hopen, hlive.1, hlive.2⟩
  by_cases h1 : fb.count = 1
  · rw [(release_cases fb).2.1 h1]
    exact ⟨by show 0 = fb.count - 1; omega, fun _ => h1, fun _ => rfl⟩
  · rw [(release_cases fb).2.2 (by omega)]
    have hnf : ¬ (Driver.release_path.still_used = Driver.release_path.freed) := by
      decide
    exact ⟨rfl, fun hf => absurd hf hnf, fun hf => absurd hf h1⟩

/-- The amended C9 on the calls acquire, release, release, release from the
opened instance: nothing is freed by the first two calls, the third frees the
instance, and the fourth (refused) frees nothing more. -/
theorem use_count_release_spec_witness :
    Driver.acquires_on_live
      [Driver.refop.acquire, Driver.refop.release, Driver.refop.release,
        Driver.refop.release] Driver.vgfbmx_open = true ∧
    Driver.run_frees
      ([Driver.refop.acquire, Driver.refop.release, Driver.refop.release,
        Driver.refop.release].take 4) Driver.vgfbmx_open = 1 :=
  ⟨by decide,
    (use_count_release_spec ⟨1⟩
      [Driver.refop.acquire, Driver.refop.release, Driver.refop.release,
        Driver.refop.release] 4 (by decide)).2.2.2.1 ⟨3, by decide, by decide⟩⟩

/-! ## C10: the Mode invariant -/

/-- C10 (as stated, refuted): two modes that satisfy the Mode invariant and
an operation after which it is lost.  At 800x600 with virtual width 1600, the
pan to x-offset 5 succeeds and leaves x-offset 5.  At 640x480 with 800 x 2^31
in the mode-list, the commit of the request for 800 x 2^31 succeeds and leaves
virtual height 0. -/
theorem mode_invariant_lost :
    mode_invariant ({ var_of 800 600 32 with xres_virtual := 1600 }) ∧
    (vgfb_pan_display ({ var_zero with xoffset := 5 })
      ⟨{ var_of 800 600 32 with xres_virtual := 1600 }, []⟩).ret = 0 ∧
    ¬ mode_invariant (vgfb_pan_display ({ var_zero with xoffset := 5 })
      ⟨{ var_of 800 600 32 with xres_virtual := 1600 }, []⟩).info.var ∧
    mode_invariant (var_of 640 480 32) ∧
    (Driver.check_var_commit (request_of 800 2147483648 32 0)
      ⟨var_of 640 480 32, [videomode_of 800 2147483648]⟩).ret = 0 ∧
    ¬ mode_invariant (Driver.check_var_commit (request_of 800 2147483648 32 0)
      ⟨var_of 640 480 32, [videomode_of 800 2147483648]⟩).info.var := by
  decide

/-- C10 (amended): the Mode invariant together with virtual width = width is
preserved by every `vgfb_pan_display`, successful or failed, and by every
set-variable-info commit (`vgfb_check_var` followed by `info->var = v`),
successful or failed, whose requested height is below 2^31. -/
theorem mode_invariant_preserved (v : fb_var_screeninfo) (info : fb_info)
    (hinv : mode_invariant info.var)
    (hxv : info.var.xres_virtual = info.var.xres) :
    (mode_invariant (vgfb_pan_display v info).info.var ∧
      (vgfb_pan_display v info).info.var.xres_virtual =
        (vgfb_pan_display v info).info.var.xres) ∧
    (v.yres < 2147483648 →
      mode_invariant (Driver.check_var_commit v info).info.var ∧
      (Driver.check_var_commit v info).info.var.xres_virtual =
        (Driver.check_var_commit v info).info.var.xres) := by
  obtain ⟨hb, hx0, hy0, hv0⟩ := hinv
  constructor
  · unfold vgfb_pan_display
    split_ifs with h1 h2
    · exact ⟨⟨hb, hx0, hy0, hv0⟩, hxv⟩
    · exact ⟨⟨hb, hx0, hy0, hv0⟩, hxv⟩
    · refine ⟨⟨hb, ?_, ?_, hv0⟩, hxv⟩
      · show v.xoffset = 0
        unfold U32 at h1
        omega
      · show v.yoffset ≤ info.var.yres
        unfold U32 at h2
        omega
  · intro hlt
    obtain ⟨_, hrej, hacc, _⟩ := check_var_commit_cases v info
    by_cases hret : (vgfb_check_var v info).ret = 0
    · obtain ⟨_, hx, hy, hiv, hw⟩ := check_var_accepted v info hret
      obtain ⟨g1, g2, g3, g4, g5, g6, g7⟩ :=
        check_var_writeback_geometry v (vgfb_check_var v info).info
      rw [hacc hret, hw]
      rw [hiv] at g7
      refine ⟨⟨by rw [g7]; exact hb, by rw [g5]; exact hx, by rw [g6, g2]; exact hy, ?_⟩,
        by rw [g3, g1]⟩
      rw [g4, g2]
      unfold U32
      omega
    · rw [hrej hret]
      exact ⟨⟨hb, hx0, hy0, hv0⟩, hxv⟩

/-- The amended C10 on an instance at 800x600: after the pan to (0, 600) the
Mode invariant holds. -/
theorem mode_invariant_preserved_witness :
    mode_invariant (var_of 800 600 32) ∧
    (var_of 800 600 32).xres_virtual = (var_of 800 600 32).xres ∧
    mode_invariant
      (vgfb_pan_display (request_of 0 0 0 600) ⟨var_of 800 600 32, []⟩).info.var :=
  ⟨by decide, by decide,
    (mode_invariant_preserved (request_of 0 0 0 600) ⟨var_of 800 600 32, []⟩
      (by decide) (by decide)).1.1⟩

/-! ## C11: order of the live list -/

/-- The removal of `vgfbmx_release` leaves the other entries in their order:
what is left is a sublist of the live list, so an ascending list stays
ascending. -/
theorem registry_release_keeps_order (ptr : Nat) (l : List Registry.vgfbm) :
    (Registry.vgfbmx_release ptr l).Sublist l ∧
    (ids_ascending l → ids_ascending (Registry.vgfbmx_release ptr l)) := by
  have hsub : (Registry.vgfbmx_release ptr l).Sublist l := by
    induction l with
    | nil => exact List.Sublist.refl _
    | cons e rest ih =>
      unfold Registry.vgfbmx_release
      split_ifs with h
      · exact List.Sublist.cons₂ e ih
      · exact List.sublist_cons_self e rest
  exact ⟨hsub, fun h => List.Pairwise.sublist hsub h⟩

/-- C11 (does not hold of the code): two opens from the empty live list.  The
first entry gets identifier 0; the scan of the second open runs to the end of
the list, so `it` is the list head and `list_add` links the entry with
identifier 1 in right behind the head, in front of the entry with identifier
0.  The live list is then 1, 0, which is not in ascending identifier order. -/
theorem registry_open_breaks_order :
    ids_ascending (Registry.vgfbmx_open 100 []).2 ∧
    (Registry.vgfbmx_open 101 (Registry.vgfbmx_open 100 []).2).2 =
      [⟨101, 1⟩, ⟨100, 0⟩] ∧
    ¬ ids_ascending (Registry.vgfbmx_open 101 (Registry.vgfbmx_open 100 []).2).2 := by
  decide

end VGD
